import Mathlib

/-!
Shallow embedding of the directional focus-navigation core of the
repository (src/plugins/ui/button_builder.rs) together with the
Navigation Graph it mutates, and proofs of the specification claims
about it.

The layout-adjacency algorithm (`ButtonNavigationBuilder`) is embedded
from src/plugins/ui/button_builder.rs.  The navigation module
(`NavigationGraph`, `NavigationNeighbors`) and the ECS command surface
(`Focusable`/`Focused` marker insertion) are declared in a module that is
not part of the provided sources, so they are modelled from the
specification (§3, §4.2, §6).
-/

set_option autoImplicit false

namespace BevyOfUs

/-- Bevy `Entity`: an opaque, copyable, equality-comparable handle.
The core only stores and compares it, so a natural number models it. -/
abbrev Entity := Nat

/-- Modelled from the spec: `NavigationNeighbors` (the spec's NeighborSet)
is four optional `Entity` values, one per direction; `None` means no
neighbor in that direction.  The module `plugins::ui::navigation` that
declares it is absent from the provided sources. -/
structure NavigationNeighbors where
  up : Option Entity
  down : Option Entity
  left : Option Entity
  right : Option Entity
  deriving DecidableEq, Repr

/-- Modelled from the spec: a fresh `NavigationNeighbors` with no
neighbor in any direction. -/
def NavigationNeighbors.new : NavigationNeighbors :=
  { up := none, down := none, left := none, right := none }

/-- Modelled from the spec: builder-style setter for the `up` field. -/
def NavigationNeighbors.with_up (ns : NavigationNeighbors) (v : Option Entity) :
    NavigationNeighbors :=
  { ns with up := v }

/-- Modelled from the spec: builder-style setter for the `down` field. -/
def NavigationNeighbors.with_down (ns : NavigationNeighbors) (v : Option Entity) :
    NavigationNeighbors :=
  { ns with down := v }

/-- Modelled from the spec: builder-style setter for the `left` field. -/
def NavigationNeighbors.with_left (ns : NavigationNeighbors) (v : Option Entity) :
    NavigationNeighbors :=
  { ns with left := v }

/-- Modelled from the spec: builder-style setter for the `right` field. -/
def NavigationNeighbors.with_right (ns : NavigationNeighbors) (v : Option Entity) :
    NavigationNeighbors :=
  { ns with right := v }

/-- Modelled from the spec: the Navigation Graph is a mapping from
element handle to its `NavigationNeighbors` (key uniqueness enforced,
insertion order irrelevant to lookup) plus one optional focused handle.
Represented as an association list with insert-or-overwrite updates. -/
structure NavigationGraph where
  buttons : List (Entity × NavigationNeighbors)
  focused : Option Entity
  deriving DecidableEq, Repr

/-- Modelled from the spec: the initial Navigation Graph state — empty,
unfocused. -/
def NavigationGraph.new : NavigationGraph :=
  { buttons := [], focused := none }

/-- Insert-or-overwrite of one key in the adjacency association list:
the first entry with the given key is replaced in place, otherwise the
new entry is appended at the end. -/
def registerEntry : List (Entity × NavigationNeighbors) → Entity → NavigationNeighbors →
    List (Entity × NavigationNeighbors)
  | [], e, ns => [(e, ns)]
  | (e', ns') :: rest, e, ns =>
      if e' = e then (e, ns) :: rest else (e', ns') :: registerEntry rest e ns

/-- Modelled from the spec: `register(handle, neighbors)` inserts or
overwrites the adjacency entry for the handle; it never fails and leaves
the focused field untouched. -/
def NavigationGraph.register_button (g : NavigationGraph) (e : Entity)
    (ns : NavigationNeighbors) : NavigationGraph :=
  { g with buttons := registerEntry g.buttons e ns }

/-- Modelled from the spec: `setFocus(handle)` sets the focused field
unconditionally and leaves the adjacency table untouched. -/
def NavigationGraph.set_focus (g : NavigationGraph) (e : Entity) : NavigationGraph :=
  { g with focused := some e }

/-- Modelled from the spec: `neighborsOf(handle)` returns the registered
`NavigationNeighbors`, or `none` if the handle was never registered. -/
def NavigationGraph.neighbors_of (g : NavigationGraph) (e : Entity) :
    Option NavigationNeighbors :=
  (g.buttons.find? (fun p => p.1 = e)).map (fun p => p.2)

/-- Modelled from the spec: the boundary marker instructions the build
issues to the rendering layer, recorded as the ordered lists of handles
that received the `Focusable` ("eligible for focus handling") and
`Focused` markers.  Stands in for the Bevy `Commands` queue. -/
structure Commands where
  focusable : List Entity
  focused_marks : List Entity
  deriving DecidableEq, Repr

/-- Modelled from the spec: a command queue with no instruction issued. -/
def Commands.new : Commands :=
  { focusable := [], focused_marks := [] }

/-- `NavigationLayout` from src/plugins/ui/button_builder.rs: the closed
set of layout shapes. -/
inductive NavigationLayout where
  | Vertical : NavigationLayout
  | Horizontal : NavigationLayout
  | Grid (columns : Nat) : NavigationLayout
  deriving DecidableEq, Repr

/-- `ButtonNavigationBuilder` from src/plugins/ui/button_builder.rs:
the ordered handles added so far and the chosen layout. -/
structure ButtonNavigationBuilder where
  buttons : List Entity
  layout : NavigationLayout
  deriving DecidableEq, Repr

/-- `ButtonNavigationBuilder::new` (button_builder.rs:51-56): stores the
layout and an empty button list; it performs no validation of the
layout, in particular no check of `Grid` columns. -/
def ButtonNavigationBuilder.new (layout : NavigationLayout) : ButtonNavigationBuilder :=
  { buttons := [], layout := layout }

/-- `ButtonNavigationBuilder::add_button` (button_builder.rs:59-61):
appends one entity to the button list. -/
def ButtonNavigationBuilder.add_button (b : ButtonNavigationBuilder) (e : Entity) :
    ButtonNavigationBuilder :=
  { b with buttons := b.buttons ++ [e] }

/-- The `NavigationLayout::Vertical` loop body (button_builder.rs:82-94):
the `NavigationNeighbors` computed for index `i` of `buttons`.
`List.getD` stands for the Rust index expression; every guarded index is
in range, so the default is never reached. -/
def verticalNeighbors (buttons : List Entity) (i : Nat) : NavigationNeighbors :=
  (NavigationNeighbors.new.with_up
      (if i > 0 then some (buttons.getD (i - 1) 0) else none)).with_down
    (if i < buttons.length - 1 then some (buttons.getD (i + 1) 0) else none)

/-- The `NavigationLayout::Horizontal` loop body (button_builder.rs:98-110):
the `NavigationNeighbors` computed for index `i` of `buttons`. -/
def horizontalNeighbors (buttons : List Entity) (i : Nat) : NavigationNeighbors :=
  (NavigationNeighbors.new.with_left
      (if i > 0 then some (buttons.getD (i - 1) 0) else none)).with_right
    (if i < buttons.length - 1 then some (buttons.getD (i + 1) 0) else none)

/-- The `NavigationLayout::Grid` loop body (button_builder.rs:114-155)
for `columns > 0`: the `NavigationNeighbors` computed for index `i` of
`buttons`, with `row = i / columns` and `col = i % columns` and the
source's literal guards (including the always-true `up_idx` bound check
and the `(row + 1) * columns` bound on `down`). -/
def gridNeighbors (buttons : List Entity) (columns : Nat) (i : Nat) : NavigationNeighbors :=
  let row := i / columns
  let col := i % columns
  let up :=
    if row > 0 then
      let up_idx := i - columns
      if up_idx < buttons.length then some (buttons.getD up_idx 0) else none
    else none
  let down :=
    if (row + 1) * columns < buttons.length then
      let down_idx := i + columns
      if down_idx < buttons.length then some (buttons.getD down_idx 0) else none
    else none
  let left := if col > 0 then some (buttons.getD (i - 1) 0) else none
  let right :=
    if col < columns - 1 && i + 1 < buttons.length then some (buttons.getD (i + 1) 0)
    else none
  ((((NavigationNeighbors.new).with_up up).with_down down).with_left left).with_right right

/-- The registration loop `for (i, &entity) in self.buttons.iter().enumerate()`
common to the three layout arms: each remaining entity is registered with
the neighbor set computed at its running index. -/
def registerFrom (f : Nat → NavigationNeighbors) :
    Nat → List Entity → NavigationGraph → NavigationGraph
  | _, [], g => g
  | i, e :: rest, g => registerFrom f (i + 1) rest (g.register_button e (f i))

/-- The initial-focus step of `build` (button_builder.rs:162-167): when
the flag is set, the first button receives the `Focused` marker and
becomes the graph focus. -/
def finishFocus (cmds : Commands) (g : NavigationGraph) (buttons : List Entity)
    (set_initial_focus : Bool) : Commands × NavigationGraph :=
  if set_initial_focus then
    match buttons.head? with
    | some first_button =>
        ({ cmds with focused_marks := cmds.focused_marks ++ [first_button] },
         g.set_focus first_button)
    | none => (cmds, g)
  else (cmds, g)

/-- `ButtonNavigationBuilder::build` (button_builder.rs:64-168).  Empty
builders return immediately; otherwise every button is marked
`Focusable`, the layout arm registers one neighbor set per button, and
the initial-focus step runs.  Rust `usize` division panics on a zero
divisor, so the `Grid` arm with `columns = 0` — whose first iteration
evaluates `i / columns` — is embedded as `Except.error` carrying the
panic message. -/
def ButtonNavigationBuilder.build (b : ButtonNavigationBuilder) (cmds : Commands)
    (nav_graph : NavigationGraph) (set_initial_focus : Bool) :
    Except String (Commands × NavigationGraph) :=
  if b.buttons.isEmpty then Except.ok (cmds, nav_graph)
  else
    let cmds1 : Commands := { cmds with focusable := cmds.focusable ++ b.buttons }
    match b.layout with
    | NavigationLayout.Vertical =>
        Except.ok (finishFocus cmds1
          (registerFrom (verticalNeighbors b.buttons) 0 b.buttons nav_graph)
          b.buttons set_initial_focus)
    | NavigationLayout.Horizontal =>
        Except.ok (finishFocus cmds1
          (registerFrom (horizontalNeighbors b.buttons) 0 b.buttons nav_graph)
          b.buttons set_initial_focus)
    | NavigationLayout.Grid columns =>
        if columns = 0 then Except.error "attempt to divide by zero"
        else
          Except.ok (finishFocus cmds1
            (registerFrom (gridNeighbors b.buttons columns) 0 b.buttons nav_graph)
            b.buttons set_initial_focus)

/-! ### Lookup lemmas for the modelled Navigation Graph -/

theorem find_registerEntry_self (l : List (Entity × NavigationNeighbors)) (e : Entity)
    (ns : NavigationNeighbors) :
    (registerEntry l e ns).find? (fun p => p.1 = e) = some (e, ns) := by
  induction l with
  | nil => simp [registerEntry, List.find?]
  | cons hd tl ih =>
    obtain ⟨e', ns'⟩ := hd
    by_cases h : e' = e
    · simp [registerEntry, h, List.find?]
    · simp [registerEntry, h, List.find?, ih]

theorem find_registerEntry_other (l : List (Entity × NavigationNeighbors)) (e e' : Entity)
    (ns : NavigationNeighbors) (h : e' ≠ e) :
    (registerEntry l e ns).find? (fun p => p.1 = e') = l.find? (fun p => p.1 = e') := by
  induction l with
  | nil => simp [registerEntry, List.find?, Ne.symm h]
  | cons hd tl ih =>
    obtain ⟨a, b⟩ := hd
    by_cases ha : a = e
    · subst ha
      simp [registerEntry, List.find?, Ne.symm h]
    · by_cases ha' : a = e'
      · simp [registerEntry, ha, List.find?, ha', h]
      · simp [registerEntry, ha, List.find?, ha', ih]

theorem neighbors_of_register_self (g : NavigationGraph) (e : Entity)
    (ns : NavigationNeighbors) :
    (g.register_button e ns).neighbors_of e = some ns := by
  simp [NavigationGraph.register_button, NavigationGraph.neighbors_of,
    find_registerEntry_self]

theorem neighbors_of_register_other (g : NavigationGraph) (e e' : Entity)
    (ns : NavigationNeighbors) (h : e' ≠ e) :
    (g.register_button e ns).neighbors_of e' = g.neighbors_of e' := by
  simp [NavigationGraph.register_button, NavigationGraph.neighbors_of,
    find_registerEntry_other _ _ _ _ h]

theorem neighbors_of_registerFrom_not_mem (f : Nat → NavigationNeighbors)
    (l : List Entity) :
    ∀ (s : Nat) (g : NavigationGraph) (e : Entity), e ∉ l →
      (registerFrom f s l g).neighbors_of e = g.neighbors_of e := by
  induction l with
  | nil => intro s g e _; rfl
  | cons a tl ih =>
    intro s g e he
    rw [List.mem_cons, not_or] at he
    rw [registerFrom, ih (s + 1) _ e he.2, neighbors_of_register_other _ _ _ _ he.1]

theorem neighbors_of_registerFrom (f : Nat → NavigationNeighbors) (l : List Entity) :
    ∀ (s : Nat) (g : NavigationGraph) (i : Nat) (hi : i < l.length), l.Nodup →
      (registerFrom f s l g).neighbors_of (l.get ⟨i, hi⟩) = some (f (s + i)) := by
  induction l with
  | nil => intro s g i hi _; exact absurd hi (by simp)
  | cons a tl ih =>
    intro s g i hi hnd
    rw [List.nodup_cons] at hnd
    match i with
    | 0 =>
      have hget : List.get (a :: tl) ⟨0, hi⟩ = a := rfl
      rw [registerFrom, hget, Nat.add_zero,
        neighbors_of_registerFrom_not_mem f tl (s + 1) _ a hnd.1]
      exact neighbors_of_register_self g a (f s)
    | Nat.succ j =>
      have hj : j < tl.length := Nat.lt_of_succ_lt_succ hi
      have hget : List.get (a :: tl) ⟨Nat.succ j, hi⟩ = tl.get ⟨j, hj⟩ := rfl
      have harith : s + Nat.succ j = s + 1 + j := by omega
      rw [registerFrom, hget, harith]
      exact ih (s + 1) _ j hj hnd.2

theorem finishFocus_snd_buttons (cmds : Commands) (g : NavigationGraph)
    (buttons : List Entity) (flag : Bool) :
    ((finishFocus cmds g buttons flag).2).buttons = g.buttons := by
  unfold finishFocus
  split
  · cases buttons.head? <;> rfl
  · rfl

theorem neighbors_of_finishFocus (cmds : Commands) (g : NavigationGraph)
    (buttons : List Entity) (flag : Bool) (e : Entity) :
    ((finishFocus cmds g buttons flag).2).neighbors_of e = g.neighbors_of e := by
  unfold NavigationGraph.neighbors_of
  rw [finishFocus_snd_buttons]

/-! ### Shape of a successful build, per layout arm -/

theorem build_vertical_eq (buttons : List Entity) (cmds : Commands)
    (g : NavigationGraph) (flag : Bool) (hne : buttons ≠ []) :
    ButtonNavigationBuilder.build ⟨buttons, NavigationLayout.Vertical⟩ cmds g flag =
      Except.ok (finishFocus { cmds with focusable := cmds.focusable ++ buttons }
        (registerFrom (verticalNeighbors buttons) 0 buttons g) buttons flag) := by
  cases buttons with
  | nil => exact absurd rfl hne
  | cons a tl => rfl

theorem build_horizontal_eq (buttons : List Entity) (cmds : Commands)
    (g : NavigationGraph) (flag : Bool) (hne : buttons ≠ []) :
    ButtonNavigationBuilder.build ⟨buttons, NavigationLayout.Horizontal⟩ cmds g flag =
      Except.ok (finishFocus { cmds with focusable := cmds.focusable ++ buttons }
        (registerFrom (horizontalNeighbors buttons) 0 buttons g) buttons flag) := by
  cases buttons with
  | nil => exact absurd rfl hne
  | cons a tl => rfl

theorem build_grid_eq (buttons : List Entity) (c : Nat) (cmds : Commands)
    (g : NavigationGraph) (flag : Bool) (hne : buttons ≠ []) (hc : c ≠ 0) :
    ButtonNavigationBuilder.build ⟨buttons, NavigationLayout.Grid c⟩ cmds g flag =
      Except.ok (finishFocus { cmds with focusable := cmds.focusable ++ buttons }
        (registerFrom (gridNeighbors buttons c) 0 buttons g) buttons flag) := by
  cases buttons with
  | nil => exact absurd rfl hne
  | cons a tl =>
    simp only [ButtonNavigationBuilder.build, List.isEmpty_cons, Bool.false_eq_true,
      if_false, hc, ite_false]

/-! ### Per-index characterizations of the three layout arms -/

theorem getD_mem_of_lt (l : List Entity) (k : Nat) (hk : k < l.length) :
    l.getD k 0 ∈ l := by
  rw [List.getD_eq_getElem l 0 hk]
  exact List.getElem_mem hk

theorem getD_inj (l : List Entity) (i j : Nat) (hnd : l.Nodup) (hi : i < l.length)
    (hj : j < l.length) : l.getD i 0 = l.getD j 0 ↔ i = j := by
  rw [List.getD_eq_getElem l 0 hi, List.getD_eq_getElem l 0 hj]
  constructor
  · intro h
    exact (List.Nodup.getElem_inj_iff hnd).mp h
  · rintro rfl
    rfl

theorem ite_some_eq_some (P : Prop) [Decidable P] (x y : Entity) :
    ((if P then some x else none) = some y) ↔ (P ∧ x = y) := by
  by_cases h : P
  · simp [h]
  · simp [h]

theorem verticalNeighbors_eq (buttons : List Entity) (i : Nat) :
    verticalNeighbors buttons i =
      { up := if 0 < i then some (buttons.getD (i - 1) 0) else none,
        down := if i < buttons.length - 1 then some (buttons.getD (i + 1) 0) else none,
        left := none, right := none } := rfl

theorem horizontalNeighbors_eq (buttons : List Entity) (i : Nat) :
    horizontalNeighbors buttons i =
      { up := none, down := none,
        left := if 0 < i then some (buttons.getD (i - 1) 0) else none,
        right := if i < buttons.length - 1 then some (buttons.getD (i + 1) 0) else none } := rfl

theorem gridNeighbors_up (buttons : List Entity) (c i : Nat) (hi : i < buttons.length) :
    (gridNeighbors buttons c i).up =
      if 0 < i / c then some (buttons.getD (i - c) 0) else none := by
  unfold gridNeighbors
  simp only [NavigationNeighbors.with_up, NavigationNeighbors.with_down,
    NavigationNeighbors.with_left, NavigationNeighbors.with_right, NavigationNeighbors.new]
  by_cases h : 0 < i / c
  · simp [h, Nat.lt_of_le_of_lt (Nat.sub_le i c) hi]
  · simp [h]

theorem gridNeighbors_down (buttons : List Entity) (c i : Nat) :
    (gridNeighbors buttons c i).down =
      if i + c < buttons.length then some (buttons.getD (i + c) 0) else none := by
  unfold gridNeighbors
  simp only [NavigationNeighbors.with_up, NavigationNeighbors.with_down,
    NavigationNeighbors.with_left, NavigationNeighbors.with_right, NavigationNeighbors.new]
  have hdc : (i / c + 1) * c ≤ i + c := by
    rw [Nat.succ_mul]
    exact Nat.add_le_add_right (Nat.div_mul_le_self i c) c
  by_cases h : i + c < buttons.length
  · have h2 : (i / c + 1) * c < buttons.length := Nat.lt_of_le_of_lt hdc h
    simp [h, h2]
  · simp [h]

theorem gridNeighbors_left (buttons : List Entity) (c i : Nat) :
    (gridNeighbors buttons c i).left =
      if 0 < i % c then some (buttons.getD (i - 1) 0) else none := rfl

theorem gridNeighbors_right (buttons : List Entity) (c i : Nat) :
    (gridNeighbors buttons c i).right =
      if i % c < c - 1 ∧ i + 1 < buttons.length then some (buttons.getD (i + 1) 0)
      else none := by
  unfold gridNeighbors
  simp only [NavigationNeighbors.with_up, NavigationNeighbors.with_down,
    NavigationNeighbors.with_left, NavigationNeighbors.with_right, NavigationNeighbors.new]
  by_cases h1 : i % c < c - 1 <;> by_cases h2 : i + 1 < buttons.length <;>
    simp [h1, h2]

/-- Successor modulo a positive divisor: the next `col` wraps to zero
exactly at the last column. -/
theorem succ_mod_eq (i c : Nat) (hc : 0 < c) :
    (i + 1) % c = if i % c + 1 = c then 0 else i % c + 1 := by
  have h1 : i % c < c := Nat.mod_lt i hc
  have h2 : i + 1 = c * (i / c) + (i % c + 1) := by
    rw [← Nat.add_assoc, Nat.div_add_mod]
  rw [h2, Nat.mul_add_mod]
  by_cases h : i % c + 1 = c
  · rw [if_pos h, h, Nat.mod_self]
  · rw [if_neg h]
    exact Nat.mod_eq_of_lt (by omega)

/-! ### Focus-field lemmas -/

theorem focused_registerFrom (f : Nat → NavigationNeighbors) (l : List Entity) :
    ∀ (s : Nat) (g : NavigationGraph), (registerFrom f s l g).focused = g.focused := by
  induction l with
  | nil => intro s g; rfl
  | cons a tl ih => intro s g; rw [registerFrom, ih]; rfl

theorem build_grid_zero (buttons : List Entity) (cmds : Commands) (g : NavigationGraph)
    (flag : Bool) (hne : buttons ≠ []) :
    ButtonNavigationBuilder.build ⟨buttons, NavigationLayout.Grid 0⟩ cmds g flag =
      Except.error "attempt to divide by zero" := by
  cases buttons with
  | nil => exact absurd rfl hne
  | cons a tl => rfl

theorem neighbors_of_registerFrom_getD (f : Nat → NavigationNeighbors) (l : List Entity)
    (s : Nat) (g : NavigationGraph) (i : Nat) (hi : i < l.length) (hnd : l.Nodup) :
    (registerFrom f s l g).neighbors_of (l.getD i 0) = some (f (s + i)) := by
  have h : l.getD i 0 = l.get ⟨i, hi⟩ := by
    rw [List.getD_eq_getElem l 0 hi]
    rfl
  rw [h]
  exact neighbors_of_registerFrom f l s g i hi hnd

theorem neighbors_after_build_vertical (buttons : List Entity) (cmds : Commands)
    (g : NavigationGraph) (flag : Bool) (cmds' : Commands) (g' : NavigationGraph)
    (i : Nat) (hnd : buttons.Nodup) (hi : i < buttons.length)
    (hbuild : ButtonNavigationBuilder.build ⟨buttons, NavigationLayout.Vertical⟩ cmds g flag =
      Except.ok (cmds', g')) :
    g'.neighbors_of (buttons.getD i 0) = some (verticalNeighbors buttons i) := by
  have hne : buttons ≠ [] := by intro h; rw [h] at hi; simp at hi
  rw [build_vertical_eq buttons cmds g flag hne] at hbuild
  have hpair := Except.ok.inj hbuild
  have hg : g' = (finishFocus { cmds with focusable := cmds.focusable ++ buttons }
      (registerFrom (verticalNeighbors buttons) 0 buttons g) buttons flag).2 := by
    rw [hpair]
  rw [hg, neighbors_of_finishFocus,
    neighbors_of_registerFrom_getD _ _ _ _ _ hi hnd, Nat.zero_add]

theorem neighbors_after_build_horizontal (buttons : List Entity) (cmds : Commands)
    (g : NavigationGraph) (flag : Bool) (cmds' : Commands) (g' : NavigationGraph)
    (i : Nat) (hnd : buttons.Nodup) (hi : i < buttons.length)
    (hbuild : ButtonNavigationBuilder.build ⟨buttons, NavigationLayout.Horizontal⟩ cmds g flag =
      Except.ok (cmds', g')) :
    g'.neighbors_of (buttons.getD i 0) = some (horizontalNeighbors buttons i) := by
  have hne : buttons ≠ [] := by intro h; rw [h] at hi; simp at hi
  rw [build_horizontal_eq buttons cmds g flag hne] at hbuild
  have hpair := Except.ok.inj hbuild
  have hg : g' = (finishFocus { cmds with focusable := cmds.focusable ++ buttons }
      (registerFrom (horizontalNeighbors buttons) 0 buttons g) buttons flag).2 := by
    rw [hpair]
  rw [hg, neighbors_of_finishFocus,
    neighbors_of_registerFrom_getD _ _ _ _ _ hi hnd, Nat.zero_add]

theorem grid_columns_ne_zero_of_ok (buttons : List Entity) (c : Nat) (cmds : Commands)
    (g : NavigationGraph) (flag : Bool) (p : Commands × NavigationGraph)
    (hne : buttons ≠ [])
    (hbuild : ButtonNavigationBuilder.build ⟨buttons, NavigationLayout.Grid c⟩ cmds g flag =
      Except.ok p) : c ≠ 0 := by
  intro hc
  rw [hc, build_grid_zero buttons cmds g flag hne] at hbuild
  simp at hbuild

theorem neighbors_after_build_grid (buttons : List Entity) (c : Nat) (cmds : Commands)
    (g : NavigationGraph) (flag : Bool) (cmds' : Commands) (g' : NavigationGraph)
    (i : Nat) (hnd : buttons.Nodup) (hi : i < buttons.length)
    (hbuild : ButtonNavigationBuilder.build ⟨buttons, NavigationLayout.Grid c⟩ cmds g flag =
      Except.ok (cmds', g')) :
    g'.neighbors_of (buttons.getD i 0) = some (gridNeighbors buttons c i) := by
  have hne : buttons ≠ [] := by intro h; rw [h] at hi; simp at hi
  have hc : c ≠ 0 := grid_columns_ne_zero_of_ok buttons c cmds g flag _ hne hbuild
  rw [build_grid_eq buttons c cmds g flag hne hc] at hbuild
  have hpair := Except.ok.inj hbuild
  have hg : g' = (finishFocus { cmds with focusable := cmds.focusable ++ buttons }
      (registerFrom (gridNeighbors buttons c) 0 buttons g) buttons flag).2 := by
    rw [hpair]
  rw [hg, neighbors_of_finishFocus,
    neighbors_of_registerFrom_getD _ _ _ _ _ hi hnd, Nat.zero_add]

/-! ### Claim theorems -/

/-- C1: the claim that a builder constructed with `Grid {columns: 0}` is
rejected as a configuration error at builder-construction time fails on
the code.  `ButtonNavigationBuilder::new` performs no validation at all —
it returns a builder that stores `Grid {columns: 0}` — and the zero
divisor is only reached inside `build`, where the first iteration's index
arithmetic `i / columns` panics with a division-by-zero error instead of
the required construction-time rejection. -/
theorem grid_zero_columns_not_rejected_at_construction :
    ButtonNavigationBuilder.new (NavigationLayout.Grid 0) =
      { buttons := [], layout := NavigationLayout.Grid 0 } ∧
    ((ButtonNavigationBuilder.new (NavigationLayout.Grid 0)).add_button 7).build
        Commands.new NavigationGraph.new false =
      Except.error "attempt to divide by zero" :=
  ⟨rfl, rfl⟩

/-- C4: for every `Vertical` build of distinct handles, element `i` is
registered with `up = element[i-1]` for `i > 0` else none, `down =
element[i+1]` for `i < n-1` else none, and `left = right = none`. -/
theorem vertical_neighbors_spec (buttons : List Entity) (cmds : Commands)
    (g : NavigationGraph) (flag : Bool) (cmds' : Commands) (g' : NavigationGraph)
    (i : Nat) (hnd : buttons.Nodup) (hi : i < buttons.length)
    (hbuild : ButtonNavigationBuilder.build ⟨buttons, NavigationLayout.Vertical⟩ cmds g flag =
      Except.ok (cmds', g')) :
    g'.neighbors_of (buttons.getD i 0) =
      some { up := if 0 < i then some (buttons.getD (i - 1) 0) else none,
             down := if i < buttons.length - 1 then some (buttons.getD (i + 1) 0) else none,
             left := none, right := none } := by
  rw [neighbors_after_build_vertical buttons cmds g flag cmds' g' i hnd hi hbuild,
    verticalNeighbors_eq]

/-- Witness for C4 at the concrete build `Vertical [5, 6, 7]` with
initial focus: the middle element has up 5, down 7 and no left/right. -/
theorem vertical_neighbors_spec_witness :
    NavigationGraph.neighbors_of
      { buttons := [(5, { up := none, down := some 6, left := none, right := none }),
                    (6, { up := some 5, down := some 7, left := none, right := none }),
                    (7, { up := some 6, down := none, left := none, right := none })],
        focused := some 5 } 6 =
      some { up := some 5, down := some 7, left := none, right := none } :=
  vertical_neighbors_spec [5, 6, 7] Commands.new NavigationGraph.new true
    { focusable := [5, 6, 7], focused_marks := [5] }
    { buttons := [(5, { up := none, down := some 6, left := none, right := none }),
                  (6, { up := some 5, down := some 7, left := none, right := none }),
                  (7, { up := some 6, down := none, left := none, right := none })],
      focused := some 5 }
    1 (by decide) (by decide) rfl

/-- C5: for every `Horizontal` build of distinct handles, element `i` is
registered with `left = element[i-1]` for `i > 0` else none, `right =
element[i+1]` for `i < n-1` else none, and `up = down = none`. -/
theorem horizontal_neighbors_spec (buttons : List Entity) (cmds : Commands)
    (g : NavigationGraph) (flag : Bool) (cmds' : Commands) (g' : NavigationGraph)
    (i : Nat) (hnd : buttons.Nodup) (hi : i < buttons.length)
    (hbuild : ButtonNavigationBuilder.build ⟨buttons, NavigationLayout.Horizontal⟩ cmds g flag =
      Except.ok (cmds', g')) :
    g'.neighbors_of (buttons.getD i 0) =
      some { up := none, down := none,
             left := if 0 < i then some (buttons.getD (i - 1) 0) else none,
             right := if i < buttons.length - 1 then some (buttons.getD (i + 1) 0) else none } := by
  rw [neighbors_after_build_horizontal buttons cmds g flag cmds' g' i hnd hi hbuild,
    horizontalNeighbors_eq]

/-- Witness for C5 at the concrete build `Horizontal [5, 6, 7]` without
initial focus: the middle element has left 5, right 7 and no up/down. -/
theorem horizontal_neighbors_spec_witness :
    NavigationGraph.neighbors_of
      { buttons := [(5, { up := none, down := none, left := none, right := some 6 }),
                    (6, { up := none, down := none, left := some 5, right := some 7 }),
                    (7, { up := none, down := none, left := some 6, right := none })],
        focused := none } 6 =
      some { up := none, down := none, left := some 5, right := some 7 } :=
  horizontal_neighbors_spec [5, 6, 7] Commands.new NavigationGraph.new false
    { focusable := [5, 6, 7], focused_marks := [] }
    { buttons := [(5, { up := none, down := none, left := none, right := some 6 }),
                  (6, { up := none, down := none, left := some 5, right := some 7 }),
                  (7, { up := none, down := none, left := some 6, right := none })],
      focused := none }
    1 (by decide) (by decide) rfl

/-- C6: building with an empty element sequence is a no-op for every
layout descriptor and every flag value — the command queue and the
Navigation Graph (adjacency entries and focused field) are returned
unchanged and no error is raised. -/
theorem empty_build_noop (layout : NavigationLayout) (cmds : Commands)
    (g : NavigationGraph) (flag : Bool) :
    ButtonNavigationBuilder.build ⟨[], layout⟩ cmds g flag = Except.ok (cmds, g) := rfl

/-- C8: the build computation is deterministic — two builders holding the
same element sequence and the same layout descriptor produce identical
results on the same starting command queue, graph state, and flag. -/
theorem build_deterministic (b1 b2 : ButtonNavigationBuilder) (cmds : Commands)
    (g : NavigationGraph) (flag : Bool) (hb : b1.buttons = b2.buttons)
    (hl : b1.layout = b2.layout) :
    b1.build cmds g flag = b2.build cmds g flag := by
  obtain ⟨bs1, l1⟩ := b1
  obtain ⟨bs2, l2⟩ := b2
  cases hb
  cases hl
  rfl

/-- Witness for C8: a builder grown by `add_button` calls and a builder
literal with the same contents build identically. -/
theorem build_deterministic_witness :
    (((ButtonNavigationBuilder.new NavigationLayout.Vertical).add_button 1).add_button 2).build
        Commands.new NavigationGraph.new true =
      (ButtonNavigationBuilder.mk [1, 2] NavigationLayout.Vertical).build
        Commands.new NavigationGraph.new true :=
  build_deterministic _ _ Commands.new NavigationGraph.new true (by decide) (by decide)

/-- The adjacency entries produced by the spec's grid example: a
`Grid {columns: 3}` build of the seven handles `0..6`. -/
def gridExampleEntries : List (Entity × NavigationNeighbors) :=
  [(0, { up := none, down := some 3, left := none, right := some 1 }),
   (1, { up := none, down := some 4, left := some 0, right := some 2 }),
   (2, { up := none, down := some 5, left := some 1, right := none }),
   (3, { up := some 0, down := some 6, left := none, right := some 4 }),
   (4, { up := some 1, down := none, left := some 3, right := some 5 }),
   (5, { up := some 2, down := none, left := some 4, right := none }),
   (6, { up := some 3, down := none, left := none, right := none })]

/-- The graph produced by the spec's grid example with initial focus. -/
def gridExampleGraph : NavigationGraph :=
  { buttons := gridExampleEntries, focused := some 0 }

/-- The command queue produced by the spec's grid example with initial
focus. -/
def gridExampleCmds : Commands :=
  { focusable := [0, 1, 2, 3, 4, 5, 6], focused_marks := [0] }

/-- C2: for every `Grid {columns = c}` build (`c ≥ 1`) of distinct
handles, element `i` (with `row = i / c`) is registered with up neighbor
`element[i-c]` when `row > 0` and none when `row = 0`, and with down
neighbor `element[i+c]` when `i + c < n` and none otherwise (in
particular none above a short final row). -/
theorem grid_up_down_neighbors (buttons : List Entity) (c : Nat) (cmds : Commands)
    (g : NavigationGraph) (flag : Bool) (cmds' : Commands) (g' : NavigationGraph)
    (i : Nat) (hnd : buttons.Nodup) (hc : 1 ≤ c) (hi : i < buttons.length)
    (hbuild : ButtonNavigationBuilder.build ⟨buttons, NavigationLayout.Grid c⟩ cmds g flag =
      Except.ok (cmds', g')) :
    (g'.neighbors_of (buttons.getD i 0)).map NavigationNeighbors.up =
      some (if 0 < i / c then some (buttons.getD (i - c) 0) else none) ∧
    (g'.neighbors_of (buttons.getD i 0)).map NavigationNeighbors.down =
      some (if i + c < buttons.length then some (buttons.getD (i + c) 0) else none) := by
  rw [neighbors_after_build_grid buttons c cmds g flag cmds' g' i hnd hi hbuild]
  constructor
  · simp only [Option.map_some']
    rw [gridNeighbors_up buttons c i hi]
  · simp only [Option.map_some']
    rw [gridNeighbors_down]

/-- Witness for C2 at the grid example (`columns = 3`, handles `0..6`):
element 4 sits in row 1, so its up neighbor is element 1, and its down
neighbor is none because the short final row has nothing below it. -/
theorem grid_up_down_neighbors_witness :
    (gridExampleGraph.neighbors_of 4).map NavigationNeighbors.up = some (some 1) ∧
    (gridExampleGraph.neighbors_of 4).map NavigationNeighbors.down = some none :=
  grid_up_down_neighbors [0, 1, 2, 3, 4, 5, 6] 3 Commands.new NavigationGraph.new true
    gridExampleCmds gridExampleGraph 4 (by decide) (by decide) (by decide) rfl

/-- C3: for every `Grid {columns = c}` build (`c ≥ 1`) of distinct
handles, element `i` (with `col = i % c`) is registered with left
neighbor `element[i-1]` when `col > 0` and none when `col = 0`, and with
right neighbor `element[i+1]` when `col < c - 1` and `i + 1 < n`, and
none otherwise (the last element overall has no right neighbor even
mid-row). -/
theorem grid_left_right_neighbors (buttons : List Entity) (c : Nat) (cmds : Commands)
    (g : NavigationGraph) (flag : Bool) (cmds' : Commands) (g' : NavigationGraph)
    (i : Nat) (hnd : buttons.Nodup) (hc : 1 ≤ c) (hi : i < buttons.length)
    (hbuild : ButtonNavigationBuilder.build ⟨buttons, NavigationLayout.Grid c⟩ cmds g flag =
      Except.ok (cmds', g')) :
    (g'.neighbors_of (buttons.getD i 0)).map NavigationNeighbors.left =
      some (if 0 < i % c then some (buttons.getD (i - 1) 0) else none) ∧
    (g'.neighbors_of (buttons.getD i 0)).map NavigationNeighbors.right =
      some (if i % c < c - 1 ∧ i + 1 < buttons.length then some (buttons.getD (i + 1) 0)
        else none) := by
  rw [neighbors_after_build_grid buttons c cmds g flag cmds' g' i hnd hi hbuild]
  constructor
  · simp only [Option.map_some']
    rw [gridNeighbors_left]
  · simp only [Option.map_some']
    rw [gridNeighbors_right]

/-- Witness for C3 at the grid example (`columns = 3`, handles `0..6`):
element 6 (row 2, column 0) has no left and no right neighbor, element 2
(row 0, column 2) has no right neighbor; and, checked directly on the
built graph, element 6 has up 3 and down none while element 2 has down 5,
completing the spec's example. -/
theorem grid_left_right_neighbors_witness :
    ((gridExampleGraph.neighbors_of 6).map NavigationNeighbors.left = some none ∧
     (gridExampleGraph.neighbors_of 6).map NavigationNeighbors.right = some none) ∧
    (gridExampleGraph.neighbors_of 2).map NavigationNeighbors.right = some none ∧
    gridExampleGraph.neighbors_of 6 =
      some { up := some 3, down := none, left := none, right := none } ∧
    gridExampleGraph.neighbors_of 2 =
      some { up := none, down := some 5, left := some 1, right := none } :=
  ⟨grid_left_right_neighbors [0, 1, 2, 3, 4, 5, 6] 3 Commands.new NavigationGraph.new true
      gridExampleCmds gridExampleGraph 6 (by decide) (by decide) (by decide) rfl,
   (grid_left_right_neighbors [0, 1, 2, 3, 4, 5, 6] 3 Commands.new NavigationGraph.new true
      gridExampleCmds gridExampleGraph 2 (by decide) (by decide) (by decide) rfl).2,
   rfl, rfl⟩

theorem finishFocus_true_cons (cmds : Commands) (g : NavigationGraph) (a : Entity)
    (tl : List Entity) :
    finishFocus cmds g (a :: tl) true =
      ({ cmds with focused_marks := cmds.focused_marks ++ [a] }, g.set_focus a) := rfl

theorem finishFocus_false (cmds : Commands) (g : NavigationGraph) (buttons : List Entity) :
    finishFocus cmds g buttons false = (cmds, g) := rfl

theorem build_focused_true (b : ButtonNavigationBuilder) (cmds : Commands)
    (g : NavigationGraph) (cmds1 : Commands) (g1 : NavigationGraph)
    (hne : b.buttons ≠ [])
    (hbuild : b.build cmds g true = Except.ok (cmds1, g1)) :
    g1.focused = some (b.buttons.getD 0 0) ∧
    cmds1.focused_marks = cmds.focused_marks ++ [b.buttons.getD 0 0] := by
  obtain ⟨buttons, layout⟩ := b
  cases buttons with
  | nil => exact absurd rfl hne
  | cons a tl =>
    cases layout with
    | Vertical =>
      rw [build_vertical_eq _ _ _ _ (List.cons_ne_nil a tl), finishFocus_true_cons] at hbuild
      have hp := Except.ok.inj hbuild
      injection hp with hpc hpg
      rw [← hpc, ← hpg]
      exact ⟨rfl, rfl⟩
    | Horizontal =>
      rw [build_horizontal_eq _ _ _ _ (List.cons_ne_nil a tl), finishFocus_true_cons] at hbuild
      have hp := Except.ok.inj hbuild
      injection hp with hpc hpg
      rw [← hpc, ← hpg]
      exact ⟨rfl, rfl⟩
    | Grid c =>
      have hc : c ≠ 0 :=
        grid_columns_ne_zero_of_ok (a :: tl) c cmds g true _ (List.cons_ne_nil a tl) hbuild
      rw [build_grid_eq _ _ _ _ _ (List.cons_ne_nil a tl) hc, finishFocus_true_cons] at hbuild
      have hp := Except.ok.inj hbuild
      injection hp with hpc hpg
      rw [← hpc, ← hpg]
      exact ⟨rfl, rfl⟩

theorem build_focused_false (b : ButtonNavigationBuilder) (cmds : Commands)
    (g : NavigationGraph) (cmds0 : Commands) (g0 : NavigationGraph)
    (hbuild : b.build cmds g false = Except.ok (cmds0, g0)) :
    g0.focused = g.focused ∧ cmds0.focused_marks = cmds.focused_marks := by
  obtain ⟨buttons, layout⟩ := b
  cases buttons with
  | nil =>
    have hp := Except.ok.inj hbuild
    injection hp with hpc hpg
    rw [← hpc, ← hpg]
    exact ⟨rfl, rfl⟩
  | cons a tl =>
    cases layout with
    | Vertical =>
      rw [build_vertical_eq _ _ _ _ (List.cons_ne_nil a tl), finishFocus_false] at hbuild
      have hp := Except.ok.inj hbuild
      injection hp with hpc hpg
      rw [← hpc, ← hpg]
      exact ⟨focused_registerFrom _ _ _ _, rfl⟩
    | Horizontal =>
      rw [build_horizontal_eq _ _ _ _ (List.cons_ne_nil a tl), finishFocus_false] at hbuild
      have hp := Except.ok.inj hbuild
      injection hp with hpc hpg
      rw [← hpc, ← hpg]
      exact ⟨focused_registerFrom _ _ _ _, rfl⟩
    | Grid c =>
      have hc : c ≠ 0 :=
        grid_columns_ne_zero_of_ok (a :: tl) c cmds g false _ (List.cons_ne_nil a tl) hbuild
      rw [build_grid_eq _ _ _ _ _ (List.cons_ne_nil a tl) hc, finishFocus_false] at hbuild
      have hp := Except.ok.inj hbuild
      injection hp with hpc hpg
      rw [← hpc, ← hpg]
      exact ⟨focused_registerFrom _ _ _ _, rfl⟩

/-- C7: for every non-empty build with the initial-focus flag set, the
resulting focused field is exactly the first handle added, regardless of
layout shape, and that handle receives the boundary focused-marker
instruction; with the flag clear, the focused field (and the marker
instruction stream) is left untouched. -/
theorem initial_focus_spec (b : ButtonNavigationBuilder) (cmds : Commands)
    (g : NavigationGraph) (cmds1 cmds0 : Commands) (g1 g0 : NavigationGraph)
    (hbuild1 : b.build cmds g true = Except.ok (cmds1, g1))
    (hbuild0 : b.build cmds g false = Except.ok (cmds0, g0)) :
    (b.buttons ≠ [] →
      g1.focused = some (b.buttons.getD 0 0) ∧
      cmds1.focused_marks = cmds.focused_marks ++ [b.buttons.getD 0 0]) ∧
    (g0.focused = g.focused ∧ cmds0.focused_marks = cmds.focused_marks) :=
  ⟨fun hne => build_focused_true b cmds g cmds1 g1 hne hbuild1,
   build_focused_false b cmds g cmds0 g0 hbuild0⟩

/-- Witness for C7 at the grid example: with the flag set the focused
field is the first handle 0 and 0 receives the focused marker; with the
flag clear the focus stays none and no marker is issued. -/
theorem initial_focus_spec_witness :
    (([0, 1, 2, 3, 4, 5, 6] : List Entity) ≠ [] →
      gridExampleGraph.focused = some 0 ∧ gridExampleCmds.focused_marks = [0]) ∧
    ((NavigationGraph.mk gridExampleEntries none).focused = NavigationGraph.new.focused ∧
      (Commands.mk [0, 1, 2, 3, 4, 5, 6] []).focused_marks = Commands.new.focused_marks) :=
  initial_focus_spec ⟨[0, 1, 2, 3, 4, 5, 6], NavigationLayout.Grid 3⟩
    Commands.new NavigationGraph.new gridExampleCmds ⟨[0, 1, 2, 3, 4, 5, 6], []⟩
    gridExampleGraph ⟨gridExampleEntries, none⟩ rfl rfl

/-! ### Registration bookkeeping for C9 -/

theorem registerEntry_not_mem (l : List (Entity × NavigationNeighbors)) (e : Entity)
    (ns : NavigationNeighbors) (h : e ∉ l.map Prod.fst) :
    registerEntry l e ns = l ++ [(e, ns)] := by
  induction l with
  | nil => rfl
  | cons hd tl ih =>
    obtain ⟨a, b⟩ := hd
    rw [List.map_cons, List.mem_cons, not_or] at h
    have ha : a ≠ e := fun hh => h.1 hh.symm
    rw [registerEntry, if_neg ha, ih h.2]
    rfl

theorem map_fst_registerFrom (f : Nat → NavigationNeighbors) (l : List Entity) :
    ∀ (s : Nat) (g : NavigationGraph), l.Nodup →
      (∀ e ∈ l, e ∉ g.buttons.map Prod.fst) →
      (registerFrom f s l g).buttons.map Prod.fst = g.buttons.map Prod.fst ++ l := by
  induction l with
  | nil => intro s g _ _; simp [registerFrom]
  | cons a tl ih =>
    intro s g hnd hdis
    rw [List.nodup_cons] at hnd
    have ha : a ∉ g.buttons.map Prod.fst := hdis a (List.mem_cons_self a tl)
    have hreg : (g.register_button a (f s)).buttons = g.buttons ++ [(a, f s)] :=
      registerEntry_not_mem g.buttons a (f s) ha
    have hdis2 : ∀ e ∈ tl, e ∉ (g.register_button a (f s)).buttons.map Prod.fst := by
      intro e he hmem
      rw [hreg, List.map_append, List.mem_append] at hmem
      rcases hmem with h1 | h2
      · exact hdis e (List.mem_cons_of_mem a he) h1
      · simp at h2
        exact hnd.1 (h2 ▸ he)
    rw [registerFrom, ih (s + 1) _ hnd.2 hdis2, hreg, List.map_append]
    simp

theorem mem_registerEntry (l : List (Entity × NavigationNeighbors)) (e : Entity)
    (ns : NavigationNeighbors) (p : Entity × NavigationNeighbors)
    (hp : p ∈ registerEntry l e ns) : p ∈ l ∨ p = (e, ns) := by
  induction l with
  | nil =>
    rw [registerEntry] at hp
    simp at hp
    exact Or.inr hp
  | cons hd tl ih =>
    obtain ⟨a, b⟩ := hd
    by_cases h : a = e
    · rw [registerEntry, if_pos h, List.mem_cons] at hp
      rcases hp with h1 | h2
      · exact Or.inr h1
      · exact Or.inl (List.mem_cons_of_mem _ h2)
    · rw [registerEntry, if_neg h, List.mem_cons] at hp
      rcases hp with h1 | h2
      · exact Or.inl (by rw [h1]; exact List.mem_cons_self _ _)
      · rcases ih h2 with h3 | h4
        · exact Or.inl (List.mem_cons_of_mem _ h3)
        · exact Or.inr h4

theorem mem_registerFrom (f : Nat → NavigationNeighbors) (l : List Entity) :
    ∀ (s : Nat) (g : NavigationGraph) (p : Entity × NavigationNeighbors),
      p ∈ (registerFrom f s l g).buttons →
      p ∈ g.buttons ∨ ∃ j, ∃ hj : j < l.length, p = (l.get ⟨j, hj⟩, f (s + j)) := by
  induction l with
  | nil => intro s g p hp; exact Or.inl hp
  | cons a tl ih =>
    intro s g p hp
    rw [registerFrom] at hp
    rcases ih (s + 1) _ p hp with h1 | ⟨j, hj, hpj⟩
    · rcases mem_registerEntry g.buttons a (f s) p h1 with h2 | h3
      · exact Or.inl h2
      · refine Or.inr ⟨0, by simp, ?_⟩
        rw [h3]
        rfl
    · refine Or.inr ⟨j + 1, Nat.succ_lt_succ hj, ?_⟩
      have harith : s + (j + 1) = s + 1 + j := by omega
      rw [hpj, harith]
      rfl

/-- Every neighbor handle stored in `ns` is an element of `buttons`. -/
def DirectionsIn (ns : NavigationNeighbors) (buttons : List Entity) : Prop :=
  (∀ m, ns.up = some m → m ∈ buttons) ∧ (∀ m, ns.down = some m → m ∈ buttons) ∧
  (∀ m, ns.left = some m → m ∈ buttons) ∧ (∀ m, ns.right = some m → m ∈ buttons)

theorem mem_of_ite_getD (l : List Entity) (P : Prop) [Decidable P] (k : Nat) (m : Entity)
    (hk : P → k < l.length)
    (hm : (if P then some (l.getD k 0) else none) = some m) : m ∈ l := by
  by_cases h : P
  · rw [if_pos h] at hm
    rw [← Option.some.inj hm]
    exact getD_mem_of_lt l k (hk h)
  · rw [if_neg h] at hm
    exact absurd hm (by simp)

theorem verticalNeighbors_directions (buttons : List Entity) (j : Nat)
    (hj : j < buttons.length) : DirectionsIn (verticalNeighbors buttons j) buttons := by
  have hup : (verticalNeighbors buttons j).up =
      if 0 < j then some (buttons.getD (j - 1) 0) else none := by rw [verticalNeighbors_eq]
  have hdown : (verticalNeighbors buttons j).down =
      if j < buttons.length - 1 then some (buttons.getD (j + 1) 0) else none := by
    rw [verticalNeighbors_eq]
  have hleft : (verticalNeighbors buttons j).left = none := by rw [verticalNeighbors_eq]
  have hright : (verticalNeighbors buttons j).right = none := by rw [verticalNeighbors_eq]
  refine ⟨?_, ?_, ?_, ?_⟩ <;> intro m hm
  · exact mem_of_ite_getD buttons _ _ m (fun _ => by omega) (hup ▸ hm)
  · exact mem_of_ite_getD buttons _ _ m (fun h => by omega) (hdown ▸ hm)
  · exact absurd (hleft ▸ hm) (by simp)
  · exact absurd (hright ▸ hm) (by simp)

theorem horizontalNeighbors_directions (buttons : List Entity) (j : Nat)
    (hj : j < buttons.length) : DirectionsIn (horizontalNeighbors buttons j) buttons := by
  have hup : (horizontalNeighbors buttons j).up = none := by rw [horizontalNeighbors_eq]
  have hdown : (horizontalNeighbors buttons j).down = none := by rw [horizontalNeighbors_eq]
  have hleft : (horizontalNeighbors buttons j).left =
      if 0 < j then some (buttons.getD (j - 1) 0) else none := by rw [horizontalNeighbors_eq]
  have hright : (horizontalNeighbors buttons j).right =
      if j < buttons.length - 1 then some (buttons.getD (j + 1) 0) else none := by
    rw [horizontalNeighbors_eq]
  refine ⟨?_, ?_, ?_, ?_⟩ <;> intro m hm
  · exact absurd (hup ▸ hm) (by simp)
  · exact absurd (hdown ▸ hm) (by simp)
  · exact mem_of_ite_getD buttons _ _ m (fun _ => by omega) (hleft ▸ hm)
  · exact mem_of_ite_getD buttons _ _ m (fun h => by omega) (hright ▸ hm)

theorem gridNeighbors_directions (buttons : List Entity) (c j : Nat)
    (hj : j < buttons.length) : DirectionsIn (gridNeighbors buttons c j) buttons := by
  refine ⟨?_, ?_, ?_, ?_⟩ <;> intro m hm
  · exact mem_of_ite_getD buttons _ _ m (fun _ => by omega)
      ((gridNeighbors_up buttons c j hj) ▸ hm)
  · exact mem_of_ite_getD buttons _ _ m (fun h => h)
      ((gridNeighbors_down buttons c j) ▸ hm)
  · exact mem_of_ite_getD buttons _ _ m (fun _ => by omega)
      ((gridNeighbors_left buttons c j) ▸ hm)
  · exact mem_of_ite_getD buttons _ _ m (fun h => h.2)
      ((gridNeighbors_right buttons c j) ▸ hm)

theorem registers_core (buttons : List Entity) (f : Nat → NavigationNeighbors)
    (hnd : buttons.Nodup)
    (hdir : ∀ (j : Nat), j < buttons.length → DirectionsIn (f j) buttons) :
    (registerFrom f 0 buttons NavigationGraph.new).buttons.map Prod.fst = buttons ∧
    ∀ e ns, (e, ns) ∈ (registerFrom f 0 buttons NavigationGraph.new).buttons →
      DirectionsIn ns buttons := by
  constructor
  · have h := map_fst_registerFrom f buttons 0 NavigationGraph.new hnd
      (by intro e _; simp [NavigationGraph.new])
    simpa [NavigationGraph.new] using h
  · intro e ns hmem
    rcases mem_registerFrom f buttons 0 NavigationGraph.new (e, ns) hmem with h1 | ⟨j, hj, hpj⟩
    · simp [NavigationGraph.new] at h1
    · have hns : ns = f (0 + j) := congrArg Prod.snd hpj
      rw [Nat.zero_add] at hns
      rw [hns]
      exact hdir j hj

/-- C9: a build starting from the freshly cleared graph registers exactly
one `NavigationNeighbors` per element of the input sequence, in sequence
order, and never registers any other handle — the resulting adjacency
table is keyed exactly by the input sequence — and every neighbor handle
stored in any registered `NavigationNeighbors` is itself an element of
the input sequence. -/
theorem build_registers_exactly_inputs (buttons : List Entity) (layout : NavigationLayout)
    (cmds : Commands) (flag : Bool) (cmds' : Commands) (g' : NavigationGraph)
    (hnd : buttons.Nodup)
    (hbuild : ButtonNavigationBuilder.build ⟨buttons, layout⟩ cmds NavigationGraph.new flag =
      Except.ok (cmds', g')) :
    g'.buttons.map Prod.fst = buttons ∧
    ∀ e ns, (e, ns) ∈ g'.buttons → DirectionsIn ns buttons := by
  by_cases hbt : buttons = []
  · subst hbt
    have hp := Except.ok.inj hbuild
    injection hp with hpc hpg
    rw [← hpg]
    exact ⟨rfl, by intro e ns hmem; simp [NavigationGraph.new] at hmem⟩
  · have hne : buttons ≠ [] := hbt
    have hbtns : ∀ (f : Nat → NavigationNeighbors) (flag2 : Bool) (cm : Commands),
        ((finishFocus cm (registerFrom f 0 buttons NavigationGraph.new) buttons flag2).2).buttons =
          (registerFrom f 0 buttons NavigationGraph.new).buttons :=
      fun f flag2 cm => finishFocus_snd_buttons cm _ buttons flag2
    cases layout with
    | Vertical =>
      rw [build_vertical_eq _ _ _ _ hne] at hbuild
      have hg := congrArg Prod.snd (Except.ok.inj hbuild)
      have hg2 : _ = g' := hg
      rw [← hg2, hbtns]
      exact registers_core buttons _ hnd (fun j hj => verticalNeighbors_directions buttons j hj)
    | Horizontal =>
      rw [build_horizontal_eq _ _ _ _ hne] at hbuild
      have hg := congrArg Prod.snd (Except.ok.inj hbuild)
      have hg2 : _ = g' := hg
      rw [← hg2, hbtns]
      exact registers_core buttons _ hnd (fun j hj => horizontalNeighbors_directions buttons j hj)
    | Grid c =>
      have hc : c ≠ 0 :=
        grid_columns_ne_zero_of_ok buttons c cmds NavigationGraph.new flag _ hne hbuild
      rw [build_grid_eq _ _ _ _ _ hne hc] at hbuild
      have hg := congrArg Prod.snd (Except.ok.inj hbuild)
      have hg2 : _ = g' := hg
      rw [← hg2, hbtns]
      exact registers_core buttons _ hnd (fun j hj => gridNeighbors_directions buttons c j hj)

/-- Witness for C9 at the grid example: the table produced by building
`Grid {columns: 3}` over handles `0..6` from the empty graph is keyed
exactly by `0..6` in order, and stores only neighbors drawn from
`0..6`. -/
theorem build_registers_exactly_inputs_witness :
    gridExampleGraph.buttons.map Prod.fst = [0, 1, 2, 3, 4, 5, 6] ∧
    ∀ e ns, (e, ns) ∈ gridExampleGraph.buttons → DirectionsIn ns [0, 1, 2, 3, 4, 5, 6] :=
  build_registers_exactly_inputs [0, 1, 2, 3, 4, 5, 6] (NavigationLayout.Grid 3)
    Commands.new true gridExampleCmds gridExampleGraph (by decide) rfl

theorem ite_getD_eq_getD (buttons : List Entity) (P : Prop) [Decidable P] (k j : Nat)
    (hnd : buttons.Nodup) (hj : j < buttons.length) (hk : P → k < buttons.length) :
    ((if P then some (buttons.getD k 0) else none) = some (buttons.getD j 0)) ↔
      (P ∧ j = k) := by
  rw [ite_some_eq_some]
  constructor
  · rintro ⟨hP, heq⟩
    exact ⟨hP, ((getD_inj buttons k j hnd (hk hP) hj).mp heq).symm⟩
  · rintro ⟨hP, rfl⟩
    exact ⟨hP, rfl⟩

/-- C10: for every build of any layout shape on distinct handles, the
registered adjacency is symmetric per axis: element[i]'s right neighbor
is element[j] iff element[j]'s left neighbor is element[i], and
element[i]'s down neighbor is element[j] iff element[j]'s up neighbor is
element[i] — so one step in a direction followed by one step in the
opposite direction returns to the starting element. -/
theorem adjacency_symmetric (buttons : List Entity) (layout : NavigationLayout)
    (cmds : Commands) (g : NavigationGraph) (flag : Bool) (cmds' : Commands)
    (g' : NavigationGraph) (i j : Nat) (nsi nsj : NavigationNeighbors)
    (hnd : buttons.Nodup) (hi : i < buttons.length) (hj : j < buttons.length)
    (hbuild : ButtonNavigationBuilder.build ⟨buttons, layout⟩ cmds g flag =
      Except.ok (cmds', g'))
    (hnsi : g'.neighbors_of (buttons.getD i 0) = some nsi)
    (hnsj : g'.neighbors_of (buttons.getD j 0) = some nsj) :
    (nsi.right = some (buttons.getD j 0) ↔ nsj.left = some (buttons.getD i 0)) ∧
    (nsi.down = some (buttons.getD j 0) ↔ nsj.up = some (buttons.getD i 0)) := by
  cases layout with
  | Vertical =>
    have ei : nsi = verticalNeighbors buttons i :=
      Option.some.inj (hnsi.symm.trans
        (neighbors_after_build_vertical buttons cmds g flag cmds' g' i hnd hi hbuild))
    have ej : nsj = verticalNeighbors buttons j :=
      Option.some.inj (hnsj.symm.trans
        (neighbors_after_build_vertical buttons cmds g flag cmds' g' j hnd hj hbuild))
    subst ei
    subst ej
    constructor
    · have hr : (verticalNeighbors buttons i).right = none := by rw [verticalNeighbors_eq]
      have hl : (verticalNeighbors buttons j).left = none := by rw [verticalNeighbors_eq]
      rw [hr, hl]
      simp
    · have hd : (verticalNeighbors buttons i).down =
          if i < buttons.length - 1 then some (buttons.getD (i + 1) 0) else none := by
        rw [verticalNeighbors_eq]
      have hu : (verticalNeighbors buttons j).up =
          if 0 < j then some (buttons.getD (j - 1) 0) else none := by
        rw [verticalNeighbors_eq]
      rw [hd, hu,
        ite_getD_eq_getD buttons (i < buttons.length - 1) (i + 1) j hnd hj
          (fun h => by omega),
        ite_getD_eq_getD buttons (0 < j) (j - 1) i hnd hi (fun h => by omega)]
      omega
  | Horizontal =>
    have ei : nsi = horizontalNeighbors buttons i :=
      Option.some.inj (hnsi.symm.trans
        (neighbors_after_build_horizontal buttons cmds g flag cmds' g' i hnd hi hbuild))
    have ej : nsj = horizontalNeighbors buttons j :=
      Option.some.inj (hnsj.symm.trans
        (neighbors_after_build_horizontal buttons cmds g flag cmds' g' j hnd hj hbuild))
    subst ei
    subst ej
    constructor
    · have hr : (horizontalNeighbors buttons i).right =
          if i < buttons.length - 1 then some (buttons.getD (i + 1) 0) else none := by
        rw [horizontalNeighbors_eq]
      have hl : (horizontalNeighbors buttons j).left =
          if 0 < j then some (buttons.getD (j - 1) 0) else none := by
        rw [horizontalNeighbors_eq]
      rw [hr, hl,
        ite_getD_eq_getD buttons (i < buttons.length - 1) (i + 1) j hnd hj
          (fun h => by omega),
        ite_getD_eq_getD buttons (0 < j) (j - 1) i hnd hi (fun h => by omega)]
      omega
    · have hd : (horizontalNeighbors buttons i).down = none := by
        rw [horizontalNeighbors_eq]
      have hu : (horizontalNeighbors buttons j).up = none := by
        rw [horizontalNeighbors_eq]
      rw [hd, hu]
      simp
  | Grid c =>
    have hne : buttons ≠ [] := by intro h; rw [h] at hi; simp at hi
    have hc : c ≠ 0 := grid_columns_ne_zero_of_ok buttons c cmds g flag _ hne hbuild
    have hc1 : 0 < c := Nat.pos_of_ne_zero hc
    have ei : nsi = gridNeighbors buttons c i :=
      Option.some.inj (hnsi.symm.trans
        (neighbors_after_build_grid buttons c cmds g flag cmds' g' i hnd hi hbuild))
    have ej : nsj = gridNeighbors buttons c j :=
      Option.some.inj (hnsj.symm.trans
        (neighbors_after_build_grid buttons c cmds g flag cmds' g' j hnd hj hbuild))
    subst ei
    subst ej
    have hmodi : i % c < c := Nat.mod_lt i hc1
    constructor
    · rw [gridNeighbors_right buttons c i, gridNeighbors_left buttons c j,
        ite_getD_eq_getD buttons (i % c < c - 1 ∧ i + 1 < buttons.length) (i + 1) j hnd hj
          (fun h => h.2),
        ite_getD_eq_getD buttons (0 < j % c) (j - 1) i hnd hi (fun h => by omega)]
      constructor
      · rintro ⟨⟨h1, h2⟩, rfl⟩
        refine ⟨?_, by omega⟩
        rw [succ_mod_eq i c hc1, if_neg (by omega)]
        omega
      · rintro ⟨h1, h2⟩
        have hj0 : 0 < j := by
          by_contra hz
          have hjz : j = 0 := by omega
          rw [hjz, Nat.zero_mod] at h1
          exact absurd h1 (by omega)
        have hji : j = i + 1 := by omega
        subst hji
        rw [succ_mod_eq i c hc1] at h1
        by_cases hcc : i % c + 1 = c
        · rw [if_pos hcc] at h1
          exact absurd h1 (by omega)
        · rw [if_neg hcc] at h1
          exact ⟨⟨by omega, by omega⟩, rfl⟩
    · rw [gridNeighbors_down buttons c i, gridNeighbors_up buttons c j hj,
        ite_getD_eq_getD buttons (i + c < buttons.length) (i + c) j hnd hj (fun h => h),
        ite_getD_eq_getD buttons (0 < j / c) (j - c) i hnd hi (fun h => by omega)]
      constructor
      · rintro ⟨h1, rfl⟩
        refine ⟨?_, by omega⟩
        rw [Nat.add_div_right i hc1]
        exact Nat.succ_pos (i / c)
      · rintro ⟨h1, h2⟩
        have hcj : c ≤ j := (Nat.one_le_div_iff hc1).mp h1
        exact ⟨by omega, by omega⟩

/-- Witness for C10 at the grid example (`columns = 3`, handles `0..6`),
with `i = 3` and `j = 4`: element 3's right neighbor is 4 iff element 4's
left neighbor is 3 (both true), and element 3's down neighbor is 4 iff
element 4's up neighbor is 3 (both false: they are 6 and 1). -/
theorem adjacency_symmetric_witness :
    (({ up := some 0, down := some 6, left := none, right := some 4 } :
        NavigationNeighbors).right = some 4 ↔
      ({ up := some 1, down := none, left := some 3, right := some 5 } :
        NavigationNeighbors).left = some 3) ∧
    (({ up := some 0, down := some 6, left := none, right := some 4 } :
        NavigationNeighbors).down = some 4 ↔
      ({ up := some 1, down := none, left := some 3, right := some 5 } :
        NavigationNeighbors).up = some 3) :=
  adjacency_symmetric [0, 1, 2, 3, 4, 5, 6] (NavigationLayout.Grid 3)
    Commands.new NavigationGraph.new true gridExampleCmds gridExampleGraph 3 4
    { up := some 0, down := some 6, left := none, right := some 4 }
    { up := some 1, down := none, left := some 3, right := some 5 }
    (by decide) (by decide) (by decide) rfl rfl rfl

end BevyOfUs
